import Mathlib

/-!
Shallow embedding of `src/app.py` (a Streamlit cryptocurrency dashboard).

The embedded core covers:
* the `@st.cache_data(ttl=300)`-decorated `fetch_crypto_data` function
  (cache state is an explicit map from argument key to `(fetchedAt, value)`;
  the decorated call returns the value, the updated cache state, and how many
  times the underlying exchange client was invoked);
* the per-symbol fetch loop of `main` (failed symbols are skipped);
* the inline metrics computation of `main`
  (`iloc[-1]` / `iloc[-2]` indexing, the percentage-change arithmetic);
* `format_price` and the `+.2f` change formatting;
* the chart trace construction (`go.Scatter(x=df['timestamp'], y=df['close'], ...)`);
* the three-way `if symbol == ... / elif ... / else` column dispatch.

Numbers from the exchange are modelled as exact rationals.  The only place the
code can hit a non-finite IEEE value is the percentage-change division
(`numpy.float64` division by zero yields `inf` / `-inf` / `nan` with a warning,
not an exception), so arithmetic results are wrapped in `PyFloat`, a rational
extended with the three IEEE special values.  Python exceptions are modelled
with `Except PyErr`; an uncaught exception aborts the rest of the script run.
-/

/-- Exceptions that the embedded fragment of the script can raise. -/
inductive PyErr where
  | indexError
  | keyError
  | clientError
deriving DecidableEq, Repr

/-- Value of a `numpy.float64` scalar: an exact rational, or one of the IEEE
special values that division by zero can produce. -/
inductive PyFloat where
  | fin (val : ℚ)
  | inf
  | negInf
  | nan
deriving DecidableEq, Repr

/-- IEEE-style division on `numpy.float64` scalars.  Division of a finite
number by zero yields a signed infinity (or `nan` for `0/0`) together with a
runtime warning, not an exception. -/
def PyFloat.div : PyFloat → PyFloat → PyFloat
  | nan, _ => nan
  | _, nan => nan
  | fin a, fin b =>
      if b = 0 then (if 0 < a then inf else if a < 0 then negInf else nan)
      else fin (a / b)
  | inf, fin b => if 0 ≤ b then inf else negInf
  | negInf, fin b => if 0 ≤ b then negInf else inf
  | fin _, inf => fin 0
  | fin _, negInf => fin 0
  | inf, inf => nan
  | inf, negInf => nan
  | negInf, inf => nan
  | negInf, negInf => nan

/-- IEEE-style multiplication on `numpy.float64` scalars. -/
def PyFloat.mul : PyFloat → PyFloat → PyFloat
  | nan, _ => nan
  | _, nan => nan
  | fin a, fin b => fin (a * b)
  | inf, fin b => if 0 < b then inf else if b < 0 then negInf else nan
  | fin a, inf => if 0 < a then inf else if a < 0 then negInf else nan
  | negInf, fin b => if 0 < b then negInf else if b < 0 then inf else nan
  | fin a, negInf => if 0 < a then negInf else if a < 0 then inf else nan
  | inf, inf => inf
  | inf, negInf => negInf
  | negInf, inf => negInf
  | negInf, negInf => inf

/-- One OHLCV row of the DataFrame built in `fetch_crypto_data`
(columns `timestamp, open, high, low, close, volume`).  A pandas `Timestamp`
is represented by its epoch value. -/
structure Candle where
  timestamp : Nat
  open_ : ℚ
  high : ℚ
  low : ℚ
  close : ℚ
  volume : ℚ
deriving DecidableEq, Repr

/-- The DataFrame produced by `fetch_crypto_data`: an ordered list of rows. -/
abbrev DF := List Candle

/-- Result of `pd.to_datetime(ms, unit='ms')`: the conversion is an
order-preserving bijection from epoch milliseconds to timestamps, so a
timestamp is represented by its epoch-millisecond value. -/
def to_datetime (ms : Nat) : Nat := ms

/-- Model of `series.iloc[-i]` (for `i ≥ 1`) on a column of length
`xs.length`: the element `xs.length - i`, or an `IndexError` when the column
is too short. -/
def iloc_neg {α : Type} (xs : List α) (i : Nat) : Except PyErr α :=
  if h : 1 ≤ i ∧ i ≤ xs.length then
    .ok (xs.get ⟨xs.length - i, by omega⟩)
  else
    .error .indexError

/-- The four per-symbol numbers computed in the metrics block of `main`. -/
structure Metrics where
  current_price : ℚ
  price_change : PyFloat
  daily_high : ℚ
  daily_low : ℚ
deriving DecidableEq, Repr

/-- The metrics block of `main` for one DataFrame:

    current_price = df['close'].iloc[-1]
    price_change = ((current_price - df['close'].iloc[-2]) / df['close'].iloc[-2]) * 100
    daily_high = df['high'].iloc[-1]
    daily_low = df['low'].iloc[-1]

The `iloc` accesses raise `IndexError` on a too-short DataFrame; there is no
other failure path (the division is IEEE, see `PyFloat.div`). -/
def compute_metrics (df : DF) : Except PyErr Metrics := do
  let current_price ← iloc_neg (df.map Candle.close) 1
  let prev ← iloc_neg (df.map Candle.close) 2
  let price_change := PyFloat.mul (PyFloat.div (.fin (current_price - prev)) (.fin prev)) (.fin 100)
  let daily_high ← iloc_neg (df.map Candle.high) 1
  let daily_low ← iloc_neg (df.map Candle.low) 1
  return { current_price := current_price, price_change := price_change,
           daily_high := daily_high, daily_low := daily_low }

/-- Decimal digit character for `d < 10`. -/
def digitChar (d : Nat) : Char := Char.ofNat (48 + d % 10)

/-- Decimal digits of `n`, least significant first, with explicit fuel
(`n + 1` always suffices, see `natDigitsRev`). -/
def natDigitsRevAux : Nat → Nat → List Char
  | 0, _ => []
  | fuel + 1, n => if n < 10 then [digitChar n] else digitChar (n % 10) :: natDigitsRevAux fuel (n / 10)

/-- Decimal digits of `n`, least significant first (`0` renders as `"0"`). -/
def natDigitsRev (n : Nat) : List Char := natDigitsRevAux (n + 1) n

/-- Decimal rendering of a natural number. -/
def natStr (n : Nat) : String := ⟨(natDigitsRev n).reverse⟩

/-- Insert a comma after every three characters of a least-significant-first
digit list: the grouping of Python's `,` format specifier. -/
def group3 : List Char → List Char
  | [] => []
  | [a] => [a]
  | [a, b] => [a, b]
  | [a, b, c] => [a, b, c]
  | a :: b :: c :: d :: rest => a :: b :: c :: ',' :: group3 (d :: rest)

/-- Decimal rendering of a natural number with thousands separators,
as produced by Python's `,` format specifier. -/
def groupedNatStr (n : Nat) : String := ⟨(group3 (natDigitsRev n)).reverse⟩

/-- Exactly `n` decimal digits of `v` (most significant first), left-padded
with zeros: the fractional part of a fixed-point rendering. -/
def padDigits : Nat → Nat → List Char
  | 0, _ => []
  | k + 1, v => padDigits k (v / 10) ++ [digitChar (v % 10)]

/-- Round-half-to-even to an integer, the rounding Python's `f`-string
formatting applies to a float value. -/
def bankersRound (q : ℚ) : ℤ :=
  if q - ⌊q⌋ < 1 / 2 then ⌊q⌋
  else if 1 / 2 < q - ⌊q⌋ then ⌊q⌋ + 1
  else if ⌊q⌋ % 2 = 0 then ⌊q⌋ else ⌊q⌋ + 1

/-- Python's fixed-point float formatting `f"{p:.nf}"` (and, with
`grouped = true`, `f"{p:,.nf}"`): round to `n` decimal places half-to-even,
then render the integer part (optionally with thousands separators), a dot,
and exactly `n` fractional digits.  A negative value gets a leading minus. -/
def format_fixed (p : ℚ) (n : Nat) (grouped : Bool) : String :=
  let sign : String := if p < 0 then "-" else ""
  let scaled : Nat := (bankersRound (|p| * 10 ^ n)).toNat
  let ipStr := if grouped then groupedNatStr (scaled / 10 ^ n) else natStr (scaled / 10 ^ n)
  sign ++ ipStr ++ "." ++ ⟨padDigits n (scaled % 10 ^ n)⟩

/-- The `format_price` function of `src/app.py`:

    if price >= 1000: return f"${price:,.2f}"
    else:             return f"${price:.4f}"
-/
def format_price (price : ℚ) : String :=
  if price ≥ 1000 then "$" ++ format_fixed price 2 true
  else "$" ++ format_fixed price 4 false

/-- The change formatting `f"{price_change:+.2f}%"` used by `main`: an always
present sign, two decimal places, and a percent sign; the IEEE special values
render as Python prints them. -/
def format_change (v : PyFloat) : String :=
  match v with
  | .fin q => (if q < 0 then "-" else "+") ++ format_fixed |q| 2 false ++ "%"
  | .inf => "+inf%"
  | .negInf => "-inf%"
  | .nan => "+nan%"

/-- The three-way `if symbol == 'BTC/USDT' / elif symbol == 'ETH/USDT' / else`
dispatch of the metrics block: which column (`col1`/`col2`/`col3`) and which
display label a symbol's metrics go to.  Every string other than the two
tested ones falls into the `else` branch. -/
def display_slot (symbol : String) : Nat × String :=
  if symbol = "BTC/USDT" then (1, "Bitcoin")
  else if symbol = "ETH/USDT" then (2, "Ethereum")
  else (3, "Solana")

/-- What `st.metric` and the two `st.caption` calls render for one symbol. -/
structure RenderedMetric where
  column : Nat
  label : String
  price_text : String
  change_text : String
  high_text : String
  low_text : String
deriving DecidableEq, Repr

/-- One iteration of the metrics-display loop of `main`: compute the four
numbers from the DataFrame (which can raise `IndexError`) and render them into
the column chosen by the symbol dispatch. -/
def render_metric (symbol : String) (df : DF) : Except PyErr RenderedMetric := do
  let m ← compute_metrics df
  let slot := display_slot symbol
  return { column := slot.1, label := slot.2,
           price_text := format_price m.current_price,
           change_text := format_change m.price_change,
           high_text := "24h High: " ++ format_price m.daily_high,
           low_text := "24h Low: " ++ format_price m.daily_low }

/-- The metrics-display loop of `main` over `crypto_data.items()`.  Returns
the metrics rendered before any exception, plus the uncaught exception if one
was raised: an exception in one iteration aborts the whole remaining loop
(Streamlit stops the script run). -/
def display_metrics : List (String × DF) → List RenderedMetric × Option PyErr
  | [] => ([], none)
  | (symbol, df) :: rest =>
      match render_metric symbol df with
      | .ok r =>
          let tail := display_metrics rest
          (r :: tail.1, tail.2)
      | .error e => ([], some e)

/-- Argument key of the `@st.cache_data`-decorated `fetch_crypto_data`:
the `(symbol, timeframe, limit)` argument tuple. -/
structure CacheKey where
  symbol : String
  timeframe : String
  limit : Nat
deriving DecidableEq, Repr

/-- State of the `st.cache_data` store for `fetch_crypto_data`: for each
argument key, the time the entry was stored and the stored return value
(which is `none` when the cached call had returned `None`). -/
def CacheState := CacheKey → Option (Nat × Option DF)

/-- The empty cache: the state at process start and after
`st.cache_data.clear()`. -/
def emptyCache : CacheState := fun _ => none

/-- The body of `fetch_crypto_data` (underneath the `@st.cache_data`
decorator): call `exchange.fetch_ohlcv`, build the DataFrame and convert the
timestamp column; on any exception show an error message and return `None`.
The exchange client is passed explicitly as a function from
`(symbol, timeframe, limit)` to either candle rows or a raised error. -/
def fetch_crypto_data_body (client : String → String → Nat → Except PyErr (List Candle))
    (symbol timeframe : String) (limit : Nat) : Option DF :=
  match client symbol timeframe limit with
  | .ok ohlcv => some (ohlcv.map (fun c => { c with timestamp := to_datetime c.timestamp }))
  | .error _ => none

/-- The `@st.cache_data(ttl=300)`-decorated `fetch_crypto_data` as called at
time `now`: if an entry for the argument key is present and younger than 300
seconds, return the stored value without running the body; otherwise run the
body, store its return value with timestamp `now`, and return it.  The third
component counts how many times the exchange client was invoked by this
call (0 on a cache hit, 1 on a miss). -/
def fetch_crypto_data (client : String → String → Nat → Except PyErr (List Candle))
    (st : CacheState) (now : Nat) (k : CacheKey) : Option DF × CacheState × Nat :=
  match st k with
  | some (fetchedAt, v) =>
      if now - fetchedAt < 300 then (v, st, 0)
      else
        let v2 := fetch_crypto_data_body client k.symbol k.timeframe k.limit
        (v2, fun k2 => if k2 = k then some (now, v2) else st k2, 1)
  | none =>
      let v2 := fetch_crypto_data_body client k.symbol k.timeframe k.limit
      (v2, fun k2 => if k2 = k then some (now, v2) else st k2, 1)

/-- The fixed symbol list of `main`. -/
def symbols : List String := ["BTC/USDT", "ETH/USDT", "SOL/USDT"]

/-- The fetch loop of `main`:

    for symbol in symbols:
        df = fetch_crypto_data(symbol, limit=days)
        if df is not None:
            crypto_data[symbol] = df

Each symbol is fetched through the cached function (timeframe defaults to
`'1d'`); a symbol whose fetch returned `None` is simply left out of
`crypto_data`.  Returns the fetched map (in insertion order), the final cache
state, and the total number of exchange-client invocations. -/
def fetch_loop (client : String → String → Nat → Except PyErr (List Candle))
    (syms : List String) (st : CacheState) (now : Nat) (days : Nat) :
    List (String × DF) × CacheState × Nat :=
  match syms with
  | [] => ([], st, 0)
  | s :: rest =>
      let r1 := fetch_crypto_data client st now ⟨s, "1d", days⟩
      let r2 := fetch_loop client rest r1.2.1 now days
      match r1.1 with
      | some df => ((s, df) :: r2.1, r2.2.1, r1.2.2 + r2.2.2)
      | none => (r2.1, r2.2.1, r1.2.2 + r2.2.2)

/-- The `colors` dict of `main`. -/
def colors (symbol : String) : Option String :=
  if symbol = "BTC/USDT" then some "#f7931a"
  else if symbol = "ETH/USDT" then some "#62688f"
  else if symbol = "SOL/USDT" then some "#00ff9d"
  else none

/-- Value of a hexadecimal digit character (`int(…, 16)` on one digit). -/
def hexDigitVal (c : Char) : Nat :=
  if 48 ≤ c.toNat ∧ c.toNat ≤ 57 then c.toNat - 48
  else if 97 ≤ c.toNat ∧ c.toNat ≤ 102 then c.toNat - 87
  else if 65 ≤ c.toNat ∧ c.toNat ≤ 70 then c.toNat - 55
  else 0

/-- Value of `int(s, 16)` for a two-character hex slice
(the slices `[0:2]`, `[2:4]`, `[4:6]` of a stripped color token). -/
def parse_hex2 (cs : List Char) : Nat :=
  match cs with
  | [a, b] => 16 * hexDigitVal a + hexDigitVal b
  | _ => 0

/-- The fill-color expression of the chart loop:

    f"rgba{tuple(list(int(colors[symbol].lstrip('#')[i:i+2], 16) for i in (0, 2, 4)) + [0.2])}"

parses the three byte pairs of the hex color and appends the fixed 0.2
alpha. -/
def fill_color (hexcolor : String) : String :=
  let h := hexcolor.toList.dropWhile (fun c => c = '#')
  let r := parse_hex2 ((h.drop 0).take 2)
  let g := parse_hex2 ((h.drop 2).take 2)
  let b := parse_hex2 ((h.drop 4).take 2)
  "rgba(" ++ natStr r ++ ", " ++ natStr g ++ ", " ++ natStr b ++ ", 0.2)"

/-- Data content of one `go.Scatter` trace added by the chart loop of `main`:
the x column (timestamps), the y column (closes), the legend name, the line
color, and the derived translucent fill color. -/
structure Trace where
  x : List Nat
  y : List ℚ
  name : String
  color : String
  fillcolor : String
deriving DecidableEq, Repr

/-- One iteration of the chart loop:

    go.Scatter(x=df['timestamp'], y=df['close'], name=symbol.split('/')[0],
               line=dict(color=colors[symbol]), fill='tonexty', fillcolor=...)

`colors[symbol]` raises `KeyError` for a symbol absent from the dict, and
`symbol.split('/')[0]` is the prefix of the symbol before its first slash. -/
def build_trace (symbol : String) (df : DF) : Except PyErr Trace :=
  match colors symbol with
  | none => .error .keyError
  | some c =>
      .ok { x := df.map Candle.timestamp, y := df.map Candle.close,
            name := ⟨symbol.toList.takeWhile (fun ch => ch ≠ '/')⟩,
            color := c, fillcolor := fill_color c }

/-- The chart loop of `main` over `crypto_data.items()`: add one trace per
fetched symbol, in insertion order; an exception aborts the script run. -/
def chart_traces : List (String × DF) → Except PyErr (List Trace)
  | [] => .ok []
  | (symbol, df) :: rest => do
      let tr ← build_trace symbol df
      let ts ← chart_traces rest
      return tr :: ts

/-- A candle whose four prices all equal `c`, used for concrete test series
that only constrain the close column. -/
def closeCandle (ts : Nat) (c : ℚ) : Candle :=
  { timestamp := ts, open_ := c, high := c, low := c, close := c, volume := 0 }

/-- A client for which every fetch raises. -/
def fail_client : String → String → Nat → Except PyErr (List Candle) :=
  fun _ _ _ => .error .clientError

/-- A client that succeeds on every symbol with a fixed two-candle history. -/
def demo_client : String → String → Nat → Except PyErr (List Candle) :=
  fun _ _ _ => .ok [closeCandle 0 100, closeCandle 1 110]

/-- A client that raises for `ETH/USDT` and succeeds for every other symbol. -/
def mixed_client : String → String → Nat → Except PyErr (List Candle) :=
  fun symbol _ _ =>
    if symbol = "ETH/USDT" then .error .clientError
    else .ok [closeCandle 0 100, closeCandle 1 110]

/-- The cache key of a fetch for 30 daily `BTC/USDT` candles. -/
def k_btc : CacheKey := ⟨"BTC/USDT", "1d", 30⟩

/-- A one-candle DataFrame. -/
def df_short : DF := [closeCandle 0 100]

/-- A two-candle DataFrame with closes `[100, 110]`. -/
def df_good : DF := [closeCandle 0 100, closeCandle 1 110]

/-- A two-candle DataFrame whose second-to-last close is zero. -/
def df_zero : DF := [closeCandle 0 0, closeCandle 1 100]

/-- The trace built for `BTC/USDT` over `df_good`. -/
def tr_btc : Trace :=
  { x := [0, 1], y := [100, 110], name := "BTC", color := "#f7931a",
    fillcolor := "rgba(247, 147, 26, 0.2)" }

/-- Evaluation lemma: rounding a rational that is already an integer is the
identity. -/
theorem bankersRound_intCast (n : ℤ) : bankersRound (n : ℚ) = n := by
  unfold bankersRound
  simp

/-- Evaluation lemma for `format_fixed` on a nonnegative price whose scaled
value is exactly an integer `m` (so rounding is trivial). -/
theorem format_fixed_cast (m : ℤ) (p : ℚ) (n : Nat) (g : Bool) (hp : 0 ≤ p)
    (h : p * 10 ^ n = (m : ℚ)) :
    format_fixed p n g = (if g then groupedNatStr (m.toNat / 10 ^ n) else natStr (m.toNat / 10 ^ n))
      ++ "." ++ ⟨padDigits n (m.toNat % 10 ^ n)⟩ := by
  unfold format_fixed
  rw [abs_of_nonneg hp, h, bankersRound_intCast, if_neg (not_lt.mpr hp)]
  simp

/-- Every list of length at least two splits off its final two elements. -/
theorem exists_concat_two {α : Type} (l : List α) (h : 2 ≤ l.length) :
    ∃ pre b a, l = pre ++ [b, a] := by
  match l, h with
  | [x], h => simp at h
  | x :: y :: rest, _ =>
    obtain ⟨pre, b, a, hd⟩ | hr : (∃ pre b a, y :: rest = pre ++ [b, a]) ∨ rest = [] := by
      rcases rest.eq_nil_or_concat with h0 | ⟨r2, a, ha⟩
      · right; exact h0
      · left
        rcases r2.eq_nil_or_concat with h1 | ⟨r3, b, hb⟩
        · exact ⟨[], y, a, by simp [ha, h1]⟩
        · exact ⟨y :: r3, b, a, by simp [ha, hb]⟩
    · exact ⟨x :: pre, b, a, by simp [hd]⟩
    · exact ⟨[], x, y, by simp [hr]⟩

/-- Evaluation of `iloc[-1]` on a column ending in `x`. -/
theorem iloc_neg_one {α : Type} (xs : List α) (x : α) : iloc_neg (xs ++ [x]) 1 = .ok x := by
  unfold iloc_neg
  rw [dif_pos (by simp)]
  exact congrArg Except.ok (List.getElem_concat_length xs x _ (by simp) (by simp))

/-- Evaluation of `iloc[-2]` on a column ending in `x, y`. -/
theorem iloc_neg_two {α : Type} (xs : List α) (x y : α) :
    iloc_neg (xs ++ [x, y]) 2 = .ok x := by
  unfold iloc_neg
  rw [dif_pos (by simp)]
  refine congrArg Except.ok ?_
  show (xs ++ [x, y])[(xs ++ [x, y]).length - 2] = x
  have hl : (xs ++ [x, y]).length - 2 = xs.length := by simp
  rw [List.getElem_of_eq rfl (by rw [hl]; simp), List.getElem_append_right (by simp [hl])]
  simp [hl]

/-- Characterization of the metrics block on a DataFrame whose last two rows
are `b` then `a`: every `iloc` access succeeds and the four numbers are read
off the last row (and, for the change, the second-to-last close). -/
theorem compute_metrics_concat (pre : List Candle) (b a : Candle) :
    compute_metrics (pre ++ [b, a]) =
      .ok { current_price := a.close,
            price_change := PyFloat.mul (PyFloat.div (.fin (a.close - b.close)) (.fin b.close)) (.fin 100),
            daily_high := a.high, daily_low := a.low } := by
  have hmap : ∀ f : Candle → ℚ, (pre ++ [b, a]).map f = pre.map f ++ [f b, f a] := by
    intro f; simp
  have h1 : ∀ f : Candle → ℚ, iloc_neg ((pre ++ [b, a]).map f) 1 = .ok (f a) := by
    intro f
    rw [hmap f, show pre.map f ++ [f b, f a] = (pre.map f ++ [f b]) ++ [f a] by simp]
    exact iloc_neg_one _ _
  have h2 : iloc_neg ((pre ++ [b, a]).map Candle.close) 2 = .ok b.close := by
    rw [hmap Candle.close]; exact iloc_neg_two _ _ _
  unfold compute_metrics
  rw [h1 Candle.close, h2, h1 Candle.high, h1 Candle.low]
  rfl

/-- On a DataFrame with fewer than two rows, the metrics block raises
`IndexError` from one of its first two `iloc` accesses. -/
theorem compute_metrics_short (df : DF) (h : df.length ≤ 1) :
    compute_metrics df = .error .indexError := by
  match df, h with
  | [], _ => rfl
  | [c], _ =>
    unfold compute_metrics
    rw [show ([c].map Candle.close) = [] ++ [c.close] by simp, iloc_neg_one]
    have : iloc_neg ([] ++ [c.close]) 2 = .error .indexError := by
      unfold iloc_neg
      rw [dif_neg (by simp)]
    rw [this]
    rfl

/-- Metrics of `df_good`: close 110, change `(110 - 100) / 100 * 100 = 10`. -/
theorem compute_metrics_df_good :
    compute_metrics df_good
      = .ok { current_price := 110, price_change := .fin 10, daily_high := 110, daily_low := 110 } := by
  have h := compute_metrics_concat [] (closeCandle 0 100) (closeCandle 1 110)
  simp only [List.nil_append] at h
  rw [show df_good = [closeCandle 0 100, closeCandle 1 110] from rfl, h]
  norm_num [closeCandle, PyFloat.div, PyFloat.mul]

/-- C1 (counterexample): contrary to the claim, a failed fetch IS stored in
the cache.  With a client whose fetch raises, the first call returns `None`
and stores `(0, None)` under the key; the immediately following call for the
same `(symbol, interval, count)` key returns the cached `None` and invokes
the market-data client zero times instead of retrying. -/
theorem c1_failure_is_cached_counterexample :
    (fetch_crypto_data fail_client emptyCache 0 k_btc).1 = none
  ∧ (fetch_crypto_data fail_client emptyCache 0 k_btc).2.1 k_btc = some (0, none)
  ∧ (fetch_crypto_data fail_client (fetch_crypto_data fail_client emptyCache 0 k_btc).2.1 1 k_btc).1 = none
  ∧ (fetch_crypto_data fail_client (fetch_crypto_data fail_client emptyCache 0 k_btc).2.1 1 k_btc).2.2 = 0 :=
  ⟨rfl, rfl, rfl, rfl⟩

/-- C1 (amended): when the underlying fetch fails, `fetch_crypto_data`
catches the exception and returns `None`; because the function is wrapped in
`st.cache_data(ttl=300)`, this `None` result is cached: the first call stores
`(now, None)` under the key and every following call for the same key within
the 300-second TTL returns the cached `None` without invoking the market-data
client again. -/
theorem c1_failure_cached_for_ttl
    (client : String → String → Nat → Except PyErr (List Candle))
    (st : CacheState) (now now2 : Nat) (k : CacheKey) (e : PyErr)
    (hcold : st k = none)
    (hfail : client k.symbol k.timeframe k.limit = .error e)
    (h300 : now2 - now < 300) :
    (fetch_crypto_data client st now k).1 = none
  ∧ (fetch_crypto_data client st now k).2.1 k = some (now, none)
  ∧ (fetch_crypto_data client (fetch_crypto_data client st now k).2.1 now2 k).1 = none
  ∧ (fetch_crypto_data client (fetch_crypto_data client st now k).2.1 now2 k).2.2 = 0 := by
  have hbody : fetch_crypto_data_body client k.symbol k.timeframe k.limit = none := by
    unfold fetch_crypto_data_body
    rw [hfail]
  simp [fetch_crypto_data, hcold, hbody, h300]

/-- C1 (witness): the amended fact evaluated on the failing client at times
0 and 10. -/
theorem c1_failure_cached_for_ttl_witness :
    (fetch_crypto_data fail_client emptyCache 0 k_btc).1 = none
  ∧ (fetch_crypto_data fail_client emptyCache 0 k_btc).2.1 k_btc = some (0, none)
  ∧ (fetch_crypto_data fail_client (fetch_crypto_data fail_client emptyCache 0 k_btc).2.1 10 k_btc).1 = none
  ∧ (fetch_crypto_data fail_client (fetch_crypto_data fail_client emptyCache 0 k_btc).2.1 10 k_btc).2.2 = 0 :=
  c1_failure_cached_for_ttl fail_client emptyCache 0 10 k_btc .clientError rfl rfl (by decide)

/-- C4: calling the cached fetch twice for the same key within the 300-second
TTL window, with no invalidation in between, returns the identical value both
times and invokes the market-data client at most once — whether the cache
started cold (the first call stores, the second hits) or already warm (both
calls hit the unexpired entry). -/
theorem c4_cache_hit_within_ttl (client : String → String → Nat → Except PyErr (List Candle))
    (st : CacheState) (t1 t2 : Nat) (k : CacheKey) :
    (st k = none → t2 - t1 < 300 →
      (fetch_crypto_data client st t1 k).1
        = (fetch_crypto_data client (fetch_crypto_data client st t1 k).2.1 t2 k).1
      ∧ (fetch_crypto_data client st t1 k).2.2
        + (fetch_crypto_data client (fetch_crypto_data client st t1 k).2.1 t2 k).2.2 ≤ 1)
  ∧ (∀ t0 v, st k = some (t0, v) → t1 - t0 < 300 → t2 - t0 < 300 →
      (fetch_crypto_data client st t1 k).1
        = (fetch_crypto_data client (fetch_crypto_data client st t1 k).2.1 t2 k).1
      ∧ (fetch_crypto_data client st t1 k).2.2
        + (fetch_crypto_data client (fetch_crypto_data client st t1 k).2.1 t2 k).2.2 ≤ 1) := by
  constructor
  · intro hc h300
    simp [fetch_crypto_data, hc, h300]
  · intro t0 v hs h1 h2
    simp [fetch_crypto_data, hs, h1, h2]

/-- C4 (witness): the cold-start case evaluated with a successful client at
times 0 and 120. -/
theorem c4_cache_hit_within_ttl_witness :
    (fetch_crypto_data demo_client emptyCache 0 k_btc).1
      = (fetch_crypto_data demo_client (fetch_crypto_data demo_client emptyCache 0 k_btc).2.1 120 k_btc).1
  ∧ (fetch_crypto_data demo_client emptyCache 0 k_btc).2.2
      + (fetch_crypto_data demo_client (fetch_crypto_data demo_client emptyCache 0 k_btc).2.1 120 k_btc).2.2 ≤ 1 :=
  (c4_cache_hit_within_ttl demo_client emptyCache 0 120 k_btc).1 rfl (by decide)

/-- C2 (counterexample): contrary to the claim, a series of length 1 does not
fail with a dedicated insufficient-data error that the presentation layer
recovers from: the metrics block raises a plain `IndexError`, and the
display loop aborts on it, so a later symbol with plenty of data is not
rendered either. -/
theorem c2_short_series_counterexample :
    compute_metrics df_short = .error .indexError
  ∧ display_metrics [("BTC/USDT", df_short), ("ETH/USDT", df_good)] = ([], some .indexError) :=
  ⟨rfl, rfl⟩

/-- C2 (amended): for a series of length 0 or 1 the metrics computation
raises a plain `IndexError` (the code has no `InsufficientDataError`), and
the error is uncaught: the metrics display aborts, omitting that symbol and
every remaining symbol rather than gracefully skipping just that symbol; for
a series of length at least 2 the computation succeeds. -/
theorem c2_short_series_crash (df : DF) :
    (df.length ≤ 1 →
      compute_metrics df = .error .indexError
      ∧ ∀ (symbol : String) (rest : List (String × DF)),
          display_metrics ((symbol, df) :: rest) = ([], some .indexError))
  ∧ (2 ≤ df.length → ∃ m, compute_metrics df = .ok m) := by
  constructor
  · intro h
    refine ⟨compute_metrics_short df h, fun symbol rest => ?_⟩
    simp [display_metrics, render_metric, compute_metrics_short df h, Except.bind]
  · intro h
    obtain ⟨pre, b, a, rfl⟩ := exists_concat_two df h
    exact ⟨_, compute_metrics_concat pre b a⟩

/-- C2 (witness): the amended fact evaluated on a one-candle and a
two-candle DataFrame. -/
theorem c2_short_series_crash_witness :
    compute_metrics df_short = .error .indexError
  ∧ display_metrics [("SOL/USDT", df_short)] = ([], some .indexError)
  ∧ ∃ m, compute_metrics df_good = .ok m :=
  ⟨((c2_short_series_crash df_short).1 (by decide)).1,
   ((c2_short_series_crash df_short).1 (by decide)).2 "SOL/USDT" [],
   (c2_short_series_crash df_good).2 (by decide)⟩

/-- C3 (counterexample): contrary to the claim, a series whose second-to-last
close is zero does not signal any error: the metrics computation succeeds and
produces a changePercent value, namely IEEE `+inf`. -/
theorem c3_zero_close_counterexample :
    compute_metrics df_zero
      = .ok { current_price := 100, price_change := .inf, daily_high := 100, daily_low := 100 } := by
  have h := compute_metrics_concat [] (closeCandle 0 0) (closeCandle 1 100)
  simp only [List.nil_append] at h
  rw [show df_zero = [closeCandle 0 0, closeCandle 1 100] from rfl, h]
  norm_num [closeCandle, PyFloat.div, PyFloat.mul]

/-- C3 (amended): for every series of length at least 2 whose second-to-last
close is zero, the code performs the division unconditionally (there is no
`InvalidPriceError`): the computation succeeds and changePercent is IEEE
`+inf` when the last close is positive, `-inf` when negative, and `nan` when
it is zero as well.  (Every series of length at least 2 has the decomposed
form used here.) -/
theorem c3_zero_close_ieee (df : DF) (pre : List Candle) (b a : Candle)
    (hdf : df = pre ++ [b, a]) (hz : b.close = 0) :
    (compute_metrics df
      = .ok { current_price := a.close,
              price_change := if 0 < a.close then .inf else if a.close < 0 then .negInf else .nan,
              daily_high := a.high, daily_low := a.low })
  ∧ ∀ l : DF, 2 ≤ l.length → ∃ p c d, l = p ++ [c, d] := by
  refine ⟨?_, fun l hl => exists_concat_two l hl⟩
  rw [hdf, compute_metrics_concat, hz, sub_zero]
  have hdivz : PyFloat.div (.fin a.close) (.fin 0)
      = if 0 < a.close then .inf else if a.close < 0 then .negInf else .nan := by
    simp [PyFloat.div]
  rw [hdivz]
  split_ifs with h1 h2 <;> norm_num [PyFloat.mul]

/-- C3 (witness): the amended fact evaluated on `df_zero`. -/
theorem c3_zero_close_ieee_witness :
    compute_metrics df_zero
      = .ok { current_price := 100,
              price_change := if (0 : ℚ) < 100 then .inf else if (100 : ℚ) < 0 then .negInf else .nan,
              daily_high := 100, daily_low := 100 } :=
  (c3_zero_close_ieee df_zero [] (closeCandle 0 0) (closeCandle 1 100) rfl rfl).1

/-- C5: for every series of length at least 2 (every such series has the
decomposed form used here), currentPrice is the close of the last candle and
changePercent is `(close[last] - close[second-to-last]) / close[second-to-last] * 100`
with sign preserved; closes `[100, 110]` give changePercent `+10.00`, and
closes `[100, 105, 95]` give currentPrice 95 and changePercent
`-200/21 ≈ -9.52`. -/
theorem c5_metrics_formula (df : DF) (pre : List Candle) (b a : Candle)
    (hdf : df = pre ++ [b, a]) (hb : b.close ≠ 0) :
    compute_metrics df
      = .ok { current_price := a.close,
              price_change := .fin ((a.close - b.close) / b.close * 100),
              daily_high := a.high, daily_low := a.low }
  ∧ (∀ l : DF, 2 ≤ l.length → ∃ p c d, l = p ++ [c, d])
  ∧ compute_metrics [closeCandle 0 100, closeCandle 1 110]
      = .ok { current_price := 110, price_change := .fin 10, daily_high := 110, daily_low := 110 }
  ∧ format_change (.fin 10) = "+10.00%"
  ∧ (∃ m, compute_metrics [closeCandle 0 100, closeCandle 1 105, closeCandle 2 95] = .ok m
       ∧ m.current_price = 95 ∧ m.price_change = .fin (-200 / 21)
       ∧ (-9.53 : ℚ) < -200 / 21 ∧ (-200 / 21 : ℚ) < -9.52) := by
  refine ⟨?_, fun l hl => exists_concat_two l hl, ?_, ?_, ?_⟩
  · rw [hdf, compute_metrics_concat]
    simp [PyFloat.div, PyFloat.mul, hb]
  · exact compute_metrics_df_good
  · rw [format_change]
    rw [if_neg (by norm_num), format_fixed_cast 1000 _ _ _ (by norm_num)
      (by rw [abs_of_nonneg (by norm_num : (0:ℚ) ≤ 10)]; norm_num)]
    decide
  · have h := compute_metrics_concat [closeCandle 0 100] (closeCandle 1 105) (closeCandle 2 95)
    simp only [List.cons_append, List.nil_append] at h
    refine ⟨_, h, rfl, ?_, by norm_num, by norm_num⟩
    norm_num [closeCandle, PyFloat.div, PyFloat.mul]

/-- C5 (witness): the formula evaluated on closes `[100, 110]`. -/
theorem c5_metrics_formula_witness :
    compute_metrics df_good
      = .ok { current_price := (closeCandle 1 110).close,
              price_change := .fin (((closeCandle 1 110).close - (closeCandle 0 100).close)
                / (closeCandle 0 100).close * 100),
              daily_high := (closeCandle 1 110).high, daily_low := (closeCandle 1 110).low } :=
  (c5_metrics_formula df_good [] (closeCandle 0 100) (closeCandle 1 110) rfl (by decide)).1

/-- C6: for every series of length at least 2 (every such series has the
decomposed form used here), dailyHigh and dailyLow are the high and low of
the last candle only; on a window whose maximum high (200) and minimum low
(90) sit in an earlier candle, the computed values are still the last
candle's 150 and 95. -/
theorem c6_daily_high_low_last_candle (df : DF) (pre : List Candle) (b a : Candle)
    (hdf : df = pre ++ [b, a]) :
    (∃ m, compute_metrics df = .ok m ∧ m.daily_high = a.high ∧ m.daily_low = a.low)
  ∧ (∀ l : DF, 2 ≤ l.length → ∃ p c d, l = p ++ [c, d])
  ∧ (∃ m, compute_metrics
        [{ timestamp := 0, open_ := 100, high := 200, low := 90, close := 100, volume := 0 },
         { timestamp := 1, open_ := 100, high := 150, low := 95, close := 110, volume := 0 }] = .ok m
      ∧ m.daily_high = 150 ∧ m.daily_low = 95
      ∧ m.daily_high ≠ max 200 150 ∧ m.daily_low ≠ min 90 95) := by
  refine ⟨⟨_, by rw [hdf]; exact compute_metrics_concat pre b a, rfl, rfl⟩,
    fun l hl => exists_concat_two l hl, ?_⟩
  have h := compute_metrics_concat []
    { timestamp := 0, open_ := 100, high := 200, low := 90, close := 100, volume := 0 }
    { timestamp := 1, open_ := 100, high := 150, low := 95, close := 110, volume := 0 }
  simp only [List.nil_append] at h
  exact ⟨_, h, rfl, rfl, by norm_num, by norm_num⟩

/-- The fractional part of a fixed-point rendering has exactly `n`
characters. -/
theorem padDigits_length (n v : Nat) : (padDigits n v).length = n := by
  induction n generalizing v with
  | zero => rfl
  | succ k ih => simp [padDigits, ih]

/-- Digit characters are decimal digits. -/
theorem digitChar_isDigit (d : Nat) : (digitChar d).isDigit = true := by
  have h : d % 10 < 10 := Nat.mod_lt _ (by norm_num)
  unfold digitChar
  generalize d % 10 = k at h ⊢
  interval_cases k <;> decide

/-- Every character of the fractional part is a decimal digit. -/
theorem padDigits_isDigit (n v : Nat) : ∀ c ∈ padDigits n v, c.isDigit = true := by
  induction n generalizing v with
  | zero => simp [padDigits]
  | succ k ih =>
    intro c hc
    rw [padDigits] at hc
    rcases List.mem_append.mp hc with h | h
    · exact ih _ c h
    · rw [List.mem_singleton] at h
      subst h
      exact digitChar_isDigit _

/-- Every character of an integer-part rendering is a decimal digit. -/
theorem natDigitsRevAux_isDigit (fuel n : Nat) :
    ∀ c ∈ natDigitsRevAux fuel n, c.isDigit = true := by
  induction fuel generalizing n with
  | zero => simp [natDigitsRevAux]
  | succ f ih =>
    intro c hc
    rw [natDigitsRevAux] at hc
    split at hc
    · rw [List.mem_singleton] at hc
      subst hc
      exact digitChar_isDigit _
    · rcases List.mem_cons.mp hc with h | h
      · subst h
        exact digitChar_isDigit _
      · exact ih _ c h

/-- A number of at least `k + 1` decimal digits renders to at least `k + 1`
characters (given enough fuel). -/
theorem natDigitsRevAux_length_ge (k : Nat) :
    ∀ fuel n, 10 ^ k ≤ n → k + 1 ≤ fuel → k + 1 ≤ (natDigitsRevAux fuel n).length := by
  induction k with
  | zero =>
    intro fuel n h1 h2
    match fuel, h2 with
    | f + 1, _ =>
      rw [natDigitsRevAux]
      split <;> simp
  | succ k ih =>
    intro fuel n h1 h2
    match fuel, h2 with
    | f + 1, _ =>
      have h10 : 10 ≤ n := by
        calc 10 = 10 ^ 1 := (pow_one 10).symm
        _ ≤ 10 ^ (k + 1) := Nat.pow_le_pow_right (by norm_num) (by omega)
        _ ≤ n := h1
      rw [natDigitsRevAux, if_neg (by omega)]
      simp only [List.length_cons]
      have hn : 10 ^ k ≤ n / 10 := by
        rw [Nat.le_div_iff_mul_le (by norm_num)]
        calc 10 ^ k * 10 = 10 ^ (k + 1) := by ring
        _ ≤ n := h1
      have := ih f (n / 10) hn (by omega)
      omega

/-- Thousands grouping only inserts commas: every output character is an
input character or a comma. -/
theorem group3_mem (ds : List Char) (c : Char) (h : c ∈ group3 ds) : c ∈ ds ∨ c = ',' := by
  induction ds using group3.induct <;> simp_all [group3]
  tauto

/-- Thousands grouping of at least four digits contains a comma. -/
theorem group3_comma (ds : List Char) (h : 4 ≤ ds.length) : ',' ∈ group3 ds := by
  match ds, h with
  | a :: b :: c :: d :: rest, _ => simp [group3]

/-- Half-to-even rounding never rounds below the floor. -/
theorem bankersRound_ge_floor (q : ℚ) : ⌊q⌋ ≤ bankersRound q := by
  unfold bankersRound
  split_ifs <;> omega

/-- Shape of the grouped branch of `format_price` on a nonnegative price. -/
theorem format_fixed_data_true (p : ℚ) (n : Nat) (hp : 0 ≤ p) :
    ("$" ++ format_fixed p n true).data
      = '$' :: ((group3 (natDigitsRev ((bankersRound (p * 10 ^ n)).toNat / 10 ^ n))).reverse
          ++ '.' :: padDigits n ((bankersRound (p * 10 ^ n)).toNat % 10 ^ n)) := by
  unfold format_fixed
  rw [abs_of_nonneg hp, if_neg (not_lt.mpr hp)]
  simp [String.data_append, groupedNatStr]

/-- Shape of the ungrouped branch of `format_price` on a nonnegative price. -/
theorem format_fixed_data_false (p : ℚ) (n : Nat) (hp : 0 ≤ p) :
    ("$" ++ format_fixed p n false).data
      = '$' :: ((natDigitsRev ((bankersRound (p * 10 ^ n)).toNat / 10 ^ n)).reverse
          ++ '.' :: padDigits n ((bankersRound (p * 10 ^ n)).toNat % 10 ^ n)) := by
  unfold format_fixed
  rw [abs_of_nonneg hp, if_neg (not_lt.mpr hp)]
  simp [String.data_append, natStr]

/-- C7: `format_price` prefixes a dollar sign; for prices at least 1000 it
renders the integer part with a thousands separator and exactly two decimal
places, for prices below 1000 exactly four decimal places and no separator;
`format(999.5) = "$999.5000"` and `format(1000.00) = "$1,000.00"` (the
boundary value 1000 takes the `>= 1000` branch). -/
theorem c7_format_price (p : ℚ) (hp : 0 ≤ p) :
    (1000 ≤ p → ∃ s fr : List Char,
        (format_price p).data = '$' :: (s ++ '.' :: fr)
      ∧ fr.length = 2 ∧ (∀ c ∈ fr, c.isDigit = true)
      ∧ ',' ∈ s ∧ (∀ c ∈ s, c.isDigit = true ∨ c = ','))
  ∧ (p < 1000 → ∃ s fr : List Char,
        (format_price p).data = '$' :: (s ++ '.' :: fr)
      ∧ fr.length = 4 ∧ (∀ c ∈ fr, c.isDigit = true)
      ∧ ',' ∉ s ∧ (∀ c ∈ s, c.isDigit = true))
  ∧ format_price (999.5 : ℚ) = "$999.5000"
  ∧ format_price (1000 : ℚ) = "$1,000.00" := by
  refine ⟨?_, ?_, ?_, ?_⟩
  · intro h1000
    refine ⟨(group3 (natDigitsRev ((bankersRound (p * 10 ^ 2)).toNat / 10 ^ 2))).reverse,
      padDigits 2 ((bankersRound (p * 10 ^ 2)).toNat % 10 ^ 2), ?_, padDigits_length _ _,
      padDigits_isDigit _ _, ?_, ?_⟩
    · rw [format_price, if_pos h1000]
      exact format_fixed_data_true p 2 hp
    · have hf : (100000 : ℤ) ≤ ⌊p * 10 ^ 2⌋ := by
        rw [Int.le_floor]
        push_cast
        nlinarith
      have hbr : (100000 : ℤ) ≤ bankersRound (p * 10 ^ 2) :=
        le_trans hf (bankersRound_ge_floor _)
      have htn : 100000 ≤ (bankersRound (p * 10 ^ 2)).toNat := by omega
      have hip : 1000 ≤ (bankersRound (p * 10 ^ 2)).toNat / 10 ^ 2 := by
        rw [show (10 : ℕ) ^ 2 = 100 from by norm_num, Nat.le_div_iff_mul_le (by norm_num)]
        omega
      have hlen : 4 ≤ (natDigitsRev ((bankersRound (p * 10 ^ 2)).toNat / 10 ^ 2)).length := by
        unfold natDigitsRev
        exact natDigitsRevAux_length_ge 3 _ _
          (by rw [show (10 : ℕ) ^ 3 = 1000 from by norm_num]; exact hip) (by omega)
      exact List.mem_reverse.mpr (group3_comma _ hlen)
    · intro c hc
      rcases group3_mem _ c (List.mem_reverse.mp hc) with h | h
      · exact Or.inl (natDigitsRevAux_isDigit _ _ c h)
      · exact Or.inr h
  · intro hlt
    refine ⟨(natDigitsRev ((bankersRound (p * 10 ^ 4)).toNat / 10 ^ 4)).reverse,
      padDigits 4 ((bankersRound (p * 10 ^ 4)).toNat % 10 ^ 4), ?_, padDigits_length _ _,
      padDigits_isDigit _ _, ?_, ?_⟩
    · rw [format_price, if_neg (not_le.mpr hlt)]
      exact format_fixed_data_false p 4 hp
    · intro hmem
      have := natDigitsRevAux_isDigit _ _ ',' (List.mem_reverse.mp hmem)
      simp at this
    · intro c hc
      exact natDigitsRevAux_isDigit _ _ c (List.mem_reverse.mp hc)
  · rw [format_price, if_neg (by norm_num),
      format_fixed_cast 9995000 _ _ _ (by norm_num) (by norm_num)]
    decide
  · rw [format_price, if_pos (by norm_num),
      format_fixed_cast 100000 _ _ _ (by norm_num) (by norm_num)]
    decide

/-- C8: a fetch failure for one configured symbol is never fatal: with a
cold cache, the fetch loop produces exactly the successfully fetched
symbols (a failed symbol is skipped, the others are unaffected), and for any
fetched map whose symbols all have a configured color and at least two
candles, the chart gets one trace per fetched symbol and the metrics display
renders every fetched symbol without raising. -/
theorem c8_symbol_isolation (client : String → String → Nat → Except PyErr (List Candle))
    (st : CacheState) (now days : Nat)
    (hcold : ∀ s ∈ symbols, st ⟨s, "1d", days⟩ = none) :
    (fetch_loop client symbols st now days).1
      = symbols.filterMap (fun s =>
          (fetch_crypto_data_body client s "1d" days).map (fun df => (s, df)))
  ∧ (∀ data : List (String × DF), (∀ sd ∈ data, colors sd.1 ≠ none) →
       ∃ ts, chart_traces data = .ok ts ∧ ts.length = data.length)
  ∧ (∀ data : List (String × DF), (∀ sd ∈ data, ∃ m, compute_metrics sd.2 = .ok m) →
       (display_metrics data).2 = none ∧ (display_metrics data).1.length = data.length) := by
  refine ⟨?_, ?_, ?_⟩
  · have hb := hcold "BTC/USDT" (by simp [symbols])
    have he := hcold "ETH/USDT" (by simp [symbols])
    have hs := hcold "SOL/USDT" (by simp [symbols])
    have k1 : (⟨"ETH/USDT", "1d", days⟩ : CacheKey) ≠ ⟨"BTC/USDT", "1d", days⟩ := by
      intro h
      injection h with h1
      exact absurd h1 (by decide)
    have k2 : (⟨"SOL/USDT", "1d", days⟩ : CacheKey) ≠ ⟨"BTC/USDT", "1d", days⟩ := by
      intro h
      injection h with h1
      exact absurd h1 (by decide)
    have k3 : (⟨"SOL/USDT", "1d", days⟩ : CacheKey) ≠ ⟨"ETH/USDT", "1d", days⟩ := by
      intro h
      injection h with h1
      exact absurd h1 (by decide)
    rcases hB : fetch_crypto_data_body client "BTC/USDT" "1d" days with _ | dfB <;>
      rcases hE : fetch_crypto_data_body client "ETH/USDT" "1d" days with _ | dfE <;>
        rcases hS : fetch_crypto_data_body client "SOL/USDT" "1d" days with _ | dfS <;>
          simp [symbols, fetch_loop, fetch_crypto_data, hb, he, hs, k1, k2, k3, hB, hE, hS]
  · intro data
    induction data with
    | nil => exact fun _ => ⟨[], rfl, rfl⟩
    | cons hd tl ih =>
      intro hcol
      obtain ⟨s, df⟩ := hd
      obtain ⟨c, hc⟩ : ∃ c, colors s = some c := by
        rcases h : colors s with _ | c
        · exact absurd h (hcol (s, df) (by simp))
        · exact ⟨c, rfl⟩
      obtain ⟨ts, hts, hlen⟩ := ih (fun sd hsd => hcol sd (by simp [hsd]))
      rcases hbt : build_trace s df with e | tr
      · rw [build_trace, hc] at hbt
        cases hbt
      · refine ⟨tr :: ts, ?_, by simp [hlen]⟩
        rw [chart_traces, hbt, hts]
        rfl
  · intro data
    induction data with
    | nil => exact fun _ => ⟨rfl, rfl⟩
    | cons hd tl ih =>
      intro hok
      obtain ⟨s, df⟩ := hd
      obtain ⟨m, hm⟩ := hok (s, df) (by simp)
      have hrm : render_metric s df
          = .ok { column := (display_slot s).1, label := (display_slot s).2,
                  price_text := format_price m.current_price,
                  change_text := format_change m.price_change,
                  high_text := "24h High: " ++ format_price m.daily_high,
                  low_text := "24h Low: " ++ format_price m.daily_low } := by
        rw [render_metric, hm]
        rfl
      obtain ⟨h2, hlen⟩ := ih (fun sd hsd => hok sd (by simp [hsd]))
      rw [display_metrics, hrm]
      exact ⟨h2, by simp [hlen]⟩

/-- C8 (witness): with a client that raises only for `ETH/USDT`, the loop
keeps `BTC/USDT` and `SOL/USDT` and skips `ETH/USDT`; chart and metrics are
produced for the two fetched symbols. -/
theorem c8_symbol_isolation_witness :
    (fetch_loop mixed_client symbols emptyCache 0 30).1
      = symbols.filterMap (fun s =>
          (fetch_crypto_data_body mixed_client s "1d" 30).map (fun df => (s, df)))
  ∧ ((fetch_loop mixed_client symbols emptyCache 0 30).1).map Prod.fst = ["BTC/USDT", "SOL/USDT"]
  ∧ (∃ ts, chart_traces [("BTC/USDT", df_good), ("SOL/USDT", df_good)] = .ok ts ∧ ts.length = 2)
  ∧ (display_metrics [("BTC/USDT", df_good), ("SOL/USDT", df_good)]).2 = none := by
  have h := c8_symbol_isolation mixed_client emptyCache 0 30 (fun s _ => rfl)
  refine ⟨h.1, by rw [h.1]; rfl, ?_, ?_⟩
  · exact h.2.1 [("BTC/USDT", df_good), ("SOL/USDT", df_good)] (by decide)
  · refine (h.2.2 [("BTC/USDT", df_good), ("SOL/USDT", df_good)] ?_).1
    intro sd hsd
    rcases List.mem_cons.mp hsd with h1 | h1
    · subst h1
      exact ⟨_, compute_metrics_df_good⟩
    · rcases List.mem_cons.mp h1 with h2 | h2
      · subst h2
        exact ⟨_, compute_metrics_df_good⟩
      · cases h2

/-- C9: the chart trace built for a DataFrame has exactly one point per
candle: the x column holds the candle timestamps and the y column the candle
closes, at every index and in input order, with no resampling or gap
filling. -/
theorem c9_trace_points (symbol : String) (df : DF) (tr : Trace)
    (h : build_trace symbol df = .ok tr) :
    tr.x.length = df.length ∧ tr.y.length = df.length
  ∧ ∀ i : Nat, tr.x[i]? = (df[i]?).map Candle.timestamp
      ∧ tr.y[i]? = (df[i]?).map Candle.close := by
  rw [build_trace] at h
  rcases hc : colors symbol with _ | c
  · rw [hc] at h
    cases h
  · rw [hc] at h
    injection h with h2
    subst h2
    exact ⟨by simp, by simp, fun i => ⟨by simp, by simp⟩⟩

/-- C9 (witness): the trace for `BTC/USDT` over `df_good`, with its second
point checked explicitly. -/
theorem c9_trace_points_witness :
    tr_btc.x.length = df_good.length ∧ tr_btc.x[1]? = some 1 ∧ tr_btc.y[1]? = some 110 := by
  have h := c9_trace_points "BTC/USDT" df_good tr_btc rfl
  exact ⟨h.1, by rw [(h.2.2 1).1]; rfl, by rw [(h.2.2 1).2]; rfl⟩

/-- C10: every symbol other than `BTC/USDT` and `ETH/USDT` falls into the
final `else` branch of the metrics display: its metrics are rendered in the
third column under the fixed label "Solana", with no validation rejecting an
unknown symbol. -/
theorem c10_unknown_symbol_solana (symbol : String) (df : DF) (m : Metrics)
    (h1 : symbol ≠ "BTC/USDT") (h2 : symbol ≠ "ETH/USDT")
    (hm : compute_metrics df = .ok m) :
    display_slot symbol = (3, "Solana")
  ∧ render_metric symbol df =
      .ok { column := 3, label := "Solana",
            price_text := format_price m.current_price,
            change_text := format_change m.price_change,
            high_text := "24h High: " ++ format_price m.daily_high,
            low_text := "24h Low: " ++ format_price m.daily_low } := by
  have hslot : display_slot symbol = (3, "Solana") := by
    rw [display_slot, if_neg h1, if_neg h2]
  refine ⟨hslot, ?_⟩
  rw [render_metric, hm]
  simp [Except.bind, hslot]

/-- C10 (witness): the unvalidated symbol `DOGE/USDT` is rendered in the
third column as "Solana". -/
theorem c10_unknown_symbol_solana_witness :
    display_slot "DOGE/USDT" = (3, "Solana")
  ∧ render_metric "DOGE/USDT" df_good =
      .ok { column := 3, label := "Solana",
            price_text := format_price 110,
            change_text := format_change (.fin 10),
            high_text := "24h High: " ++ format_price 110,
            low_text := "24h Low: " ++ format_price 110 } :=
  c10_unknown_symbol_solana "DOGE/USDT" df_good
    { current_price := 110, price_change := .fin 10, daily_high := 110, daily_low := 110 }
    (by decide) (by decide) compute_metrics_df_good

/-- C7 (witness): the grouped branch evaluated at price 2500.75. -/
theorem c7_format_price_witness :
    ∃ s fr : List Char,
      (format_price (2500.75 : ℚ)).data = '$' :: (s ++ '.' :: fr)
    ∧ fr.length = 2 ∧ (∀ c ∈ fr, c.isDigit = true)
    ∧ ',' ∈ s ∧ (∀ c ∈ s, c.isDigit = true ∨ c = ',') :=
  (c7_format_price 2500.75 (by norm_num)).1 (by norm_num)

/-- C6 (witness): dailyHigh and dailyLow evaluated on `df_good`. -/
theorem c6_daily_high_low_last_candle_witness :
    ∃ m, compute_metrics df_good = .ok m
      ∧ m.daily_high = (closeCandle 1 110).high ∧ m.daily_low = (closeCandle 1 110).low :=
  (c6_daily_high_low_last_candle df_good [] (closeCandle 0 100) (closeCandle 1 110) rfl).1

